import Mathlib

/-!
# Verification of the EmiralAI client-side user-data manager

A shallow embedding of the `EmiralUserData` module from `src/js/auth-popups.js`
(plus the avatar helper from `src/js/dashboard.js`), together with theorems
settling the specification claims about it.

Modelling conventions:

* JavaScript values are modelled by the inductive `JValue`; objects are
  association lists of string keys (`JObj`).  An absent property is `none`
  (JS `undefined`).
* ISO-8601 timestamp strings (produced by `new Date().toISOString()`) are
  represented by the constructor `JValue.iso ms` carrying the millisecond
  value; such a string is always truthy, and `new Date(s)` recovers `ms`.
* The module's mock metrics (`_calculateUsage`, parts of `_getUserMetrics`
  and `_enhanceSubscription`) compute IEEE-754 numbers from `Math.sin` of a
  seed and from `Date` formatting.  Floating point has no exact integer
  embedding; these values are deterministic functions of the seed, the plan
  and the dates, and no claim inspects them, so they are represented by the
  constructor `JValue.mock tag a b` recording the function and its inputs.
  Integer-exact metrics (accuracy, responseTime, averageProcessingTime,
  apiLimit, ...) are computed exactly.
* The current time `Date.now()` is passed to every operation as an explicit
  `now : Int` (milliseconds).
* Each manager operation returns its new state, its result and the ordered
  list of events it fires through `_triggerEvent` / `_notifyOtherTabs`.
* Statements that can throw a `TypeError` (property access on `undefined`,
  string methods on non-strings) are modelled with `Except Unit`; a public
  method whose source wraps its body in `try/catch` is modelled total, with
  the catch branch produced explicitly.
-/

/-- A JavaScript/JSON value as used by the user-data manager. -/
inductive JValue where
  | s (v : String)
  | i (v : Int)
  | iso (ms : Int)
  | b (v : Bool)
  | undef
  | nul
  | arr (vs : List JValue)
  | obj (fields : List (String × JValue))
  | mock (tag : String) (a b : Int)

/-- A JavaScript object: an ordered association list of properties. -/
abbrev JObj := List (String × JValue)

/-- Property read: first binding of the key, `none` for JS `undefined`. -/
def jLookup : JObj → String → Option JValue
  | [], _ => none
  | (k', v) :: rest, k => if k' = k then some v else jLookup rest k

/-- Remove every binding of a key (used to model destructuring-rest and
property overwrite). -/
def jErase : JObj → String → JObj
  | [], _ => []
  | (k', v) :: rest, k => if k' = k then jErase rest k else (k', v) :: jErase rest k

/-- Set a property: JS assignment / spread of a single key. -/
def jInsert (o : JObj) (k : String) (v : JValue) : JObj :=
  jErase o k ++ [(k, v)]

/-- Spread a field list over a base object, later keys overriding
(`{...base, ...fields}`). -/
def jMergeFields (o : JObj) (fs : List (String × JValue)) : JObj :=
  fs.foldl (fun acc kv => jInsert acc kv.1 kv.2) o

/-- Remove several keys at once (destructuring-rest `...userData`). -/
def jEraseMany (o : JObj) (ks : List String) : JObj :=
  ks.foldl jErase o

/-- JS truthiness of a value.  `iso` timestamps are nonempty strings, hence
truthy; `mock` stands for the module's mock metrics, which are never the
operand of a truthiness test in the modelled control flow. -/
def jTruthy : JValue → Bool
  | .s v => v ≠ ""
  | .i v => v ≠ 0
  | .iso _ => true
  | .b v => v
  | .undef => false
  | .nul => false
  | .arr _ => true
  | .obj _ => true
  | .mock _ _ _ => true

/-- Truthiness of a possibly-absent value (`undefined` is falsy). -/
def jTruthyO : Option JValue → Bool
  | none => false
  | some v => jTruthy v

/-- Optional-chaining property read `v?.k`: `undefined` on `undefined`,
`null` and primitives, the property on objects. -/
def jGetField (o : Option JValue) (k : String) : Option JValue :=
  match o with
  | some (.obj fs) => jLookup fs k
  | _ => none

/-- Plain property access `base[k]` where `base` may be `undefined`/`null`
(throws a `TypeError`) or a primitive (boxes to a wrapper with no own
properties). -/
def jIndexThrow (o : Option JValue) (k : String) : Except Unit (Option JValue) :=
  match o with
  | none => .error ()
  | some .undef => .error ()
  | some .nul => .error ()
  | some (.obj fs) => .ok (jLookup fs k)
  | some _ => .ok none

/-- `undefined`-completion: a JS expression that may be absent, as a value. -/
def optJ (o : Option JValue) : JValue :=
  match o with
  | some v => v
  | none => .undef

section ObjLemmas

variable {o : JObj} {k k' : String} {v : JValue}

theorem jLookup_append (l1 l2 : JObj) (k : String) :
    jLookup (l1 ++ l2) k =
      (match jLookup l1 k with
       | some v => some v
       | none => jLookup l2 k) := by
  induction l1 with
  | nil => simp [jLookup]
  | cons p rest ih =>
    obtain ⟨k0, v0⟩ := p
    by_cases h : k0 = k <;> simp [jLookup, h, ih]

theorem jLookup_jErase_self : jLookup (jErase o k) k = none := by
  induction o with
  | nil => rfl
  | cons p rest ih =>
    obtain ⟨k0, v0⟩ := p
    by_cases h : k0 = k <;> simp [jErase, jLookup, h, ih]

theorem jLookup_jErase_ne (h : k' ≠ k) :
    jLookup (jErase o k') k = jLookup o k := by
  induction o with
  | nil => rfl
  | cons p rest ih =>
    obtain ⟨k0, v0⟩ := p
    by_cases h0 : k0 = k'
    · have hk : k0 ≠ k := fun he => h (h0 ▸ he)
      simp [jErase, jLookup, h0, hk, h, ih]
    · by_cases hk : k0 = k <;>
        simp [jErase, jLookup, h0, hk, h, Ne.symm h, ih]

theorem jLookup_jInsert_self : jLookup (jInsert o k v) k = some v := by
  simp [jInsert, jLookup_append, jLookup_jErase_self, jLookup]

theorem jLookup_jInsert_ne (h : k' ≠ k) :
    jLookup (jInsert o k' v) k = jLookup o k := by
  rw [jInsert, jLookup_append, jLookup_jErase_ne h]
  rcases jLookup o k with _ | w <;> simp [jLookup, h]

theorem jMergeFields_nil : jMergeFields o [] = o := rfl

theorem jMergeFields_cons (fs : List (String × JValue)) :
    jMergeFields o ((k, v) :: fs) = jMergeFields (jInsert o k v) fs := rfl

theorem jLookup_jMergeFields_not_mem {fs : List (String × JValue)}
    (h : k ∉ fs.map Prod.fst) :
    jLookup (jMergeFields o fs) k = jLookup o k := by
  induction fs generalizing o with
  | nil => rfl
  | cons p rest ih =>
    obtain ⟨k0, v0⟩ := p
    simp only [List.map_cons, List.mem_cons, not_or] at h
    rw [jMergeFields_cons, ih h.2, jLookup_jInsert_ne (fun he => h.1 he.symm)]

theorem jLookup_jMergeFields_of_lookup {fs : List (String × JValue)}
    (hnd : (fs.map Prod.fst).Nodup) (h : jLookup fs k = some v) :
    jLookup (jMergeFields o fs) k = some v := by
  induction fs generalizing o with
  | nil => simp [jLookup] at h
  | cons p rest ih =>
    obtain ⟨k0, v0⟩ := p
    simp only [List.map_cons, List.nodup_cons] at hnd
    by_cases hk : k0 = k
    · subst hk
      simp only [jLookup, if_true, eq_self_iff_true] at h
      rw [jMergeFields_cons,
        jLookup_jMergeFields_not_mem hnd.1, jLookup_jInsert_self]
      simpa using h
    · simp only [jLookup, if_neg hk] at h
      rw [jMergeFields_cons, ih hnd.2 h]

theorem jLookup_jMergeFields_mem_isSome {fs : List (String × JValue)}
    (h : k ∈ fs.map Prod.fst) :
    (jLookup (jMergeFields o fs) k).isSome = true := by
  induction fs generalizing o with
  | nil => simp at h
  | cons p rest ih =>
    obtain ⟨k0, v0⟩ := p
    by_cases hr : k ∈ rest.map Prod.fst
    · rw [jMergeFields_cons]; exact ih hr
    · simp only [List.map_cons, List.mem_cons] at h
      rcases h with h | h
      · subst h
        rw [jMergeFields_cons, jLookup_jMergeFields_not_mem hr,
          jLookup_jInsert_self]
        rfl
      · exact absurd h hr

theorem jLookup_isSome_jMergeFields {fs : List (String × JValue)}
    (h : (jLookup o k).isSome = true) :
    (jLookup (jMergeFields o fs) k).isSome = true := by
  by_cases hm : k ∈ fs.map Prod.fst
  · exact jLookup_jMergeFields_mem_isSome hm
  · rw [jLookup_jMergeFields_not_mem hm]; exact h

theorem jLookup_jEraseMany (ks : List String) :
    jLookup (jEraseMany o ks) k = if k ∈ ks then none else jLookup o k := by
  induction ks generalizing o with
  | nil => simp [jEraseMany]
  | cons k0 rest ih =>
    show jLookup (jEraseMany (jErase o k0) rest) k = _
    rw [ih]
    by_cases h0 : k = k0
    · subst h0
      by_cases hr : k ∈ rest <;> simp [hr, jLookup_jErase_self]
    · by_cases hr : k ∈ rest <;>
        simp [hr, h0, jLookup_jErase_ne (fun he => h0 he.symm)]

end ObjLemmas

/-! ## Email validation (`_isValidEmail`, regex `/^[^\s@]+@[^\s@]+\.[^\s@]+$/`) -/

/-- Split a character list at every occurrence of a separator
(`"a@b".split("@")` semantics). -/
def splitChar (sep : Char) : List Char → List (List Char)
  | [] => [[]]
  | c :: rest =>
    match splitChar sep rest with
    | [] => [[]]
    | g :: gs => if c = sep then [] :: g :: gs else (c :: g) :: gs

/-- Character class `[^\s@]` fails on whitespace; model of the JS `\s`
class restricted to the ASCII whitespace characters. -/
def noWsChars (e : String) : Bool :=
  e.data.all (fun c =>
    !(c == ' ' || c == '\t' || c == '\n' || c == '\r' || c == '\x0b' || c == '\x0c'))

/-- The domain part must decompose as `[^\s@]+ "." [^\s@]+`: a dot at some
index `i` with nonempty text on both sides. -/
def domainHasInnerDot (cs : List Char) : Bool :=
  (List.range cs.length).any (fun idx =>
    cs.getD idx ' ' == '.' && decide (1 ≤ idx) && decide (idx + 2 ≤ cs.length))

/-- `_isValidEmail` from `src/js/auth-popups.js:3031`: the anchored regex
`/^[^\s@]+@[^\s@]+\.[^\s@]+$/` holds iff the string splits at a single `@`
into a nonempty local part and a domain containing an inner dot, with no
whitespace anywhere. -/
def isValidEmail (e : String) : Bool :=
  match splitChar '@' e.data with
  | [lp, dp] => (!lp.isEmpty) && (!dp.isEmpty) && noWsChars e && domainHasInnerDot dp
  | _ => false

/-! ## The avatar hash and palettes -/

/-- JS `x & x` / `x | 0`: coercion to a signed 32-bit integer. -/
def toInt32 (x : Int) : Int :=
  let r := x % 4294967296
  if r < 2147483648 then r else r - 4294967296

/-- One step of the avatar hash: `hash = ((hash << 5) - hash) + code` followed
by `hash = hash & hash` (`<<` already operates on int32). -/
def hashStep (h : Int) (c : Nat) : Int :=
  toInt32 (toInt32 (h * 32) - h + (c : Int))

/-- The string hash both avatar generators use (fold over char codes,
starting from 0). -/
def jsHash (str : String) : Int :=
  str.data.foldl (fun h c => hashStep h c.toNat) 0

/-- The 15-color palette of `EmiralUserData._getDefaultAvatar`. -/
def palette15 : List String :=
  ["#FF6B6B", "#4ECDC4", "#45B7D1", "#FFA07A", "#98D8C8",
   "#F7DC6F", "#BB8FCE", "#85C1F2", "#F8B739", "#52C41A",
   "#1890FF", "#722ED1", "#EB2F96", "#13C2C2", "#FAAD14"]

/-- The 10-color palette of `generateUserAvatar` in `src/js/dashboard.js`. -/
def palette10 : List String :=
  ["#FF6B6B", "#4ECDC4", "#45B7D1", "#FFA07A", "#98D8C8",
   "#F7DC6F", "#BB8FCE", "#85C1F2", "#F8B739", "#52C41A"]

/-- Palette index: `Math.abs(hash) % colors.length` of the lowercased string. -/
def colorIndex15 (str : String) : Nat :=
  (jsHash str).natAbs % palette15.length

/-- Background color chosen by `_getDefaultAvatar` for a (lowercased) hash
string. -/
def avatarColor15 (str : String) : String :=
  palette15.getD (colorIndex15 str) ""

/-- Palette index for the dashboard generator. -/
def colorIndex10 (str : String) : Nat :=
  (jsHash str).natAbs % palette10.length

/-- Background color chosen by `generateUserAvatar` (dashboard). -/
def avatarColor10 (str : String) : String :=
  palette10.getD (colorIndex10 str) ""

/-! ## Base64 (`btoa(unescape(encodeURIComponent(svg)))` = base64 of the
UTF-8 bytes) -/

def b64Alphabet : List Char :=
  "ABCDEFGHIJKLMNOPQRSTUVWXYZabcdefghijklmnopqrstuvwxyz0123456789+/".data

def b64c (n : Nat) : Char := b64Alphabet.getD n 'A'

/-- Base64-encode a byte list. -/
def b64Encode : List Nat → String
  | [] => ""
  | [a] =>
    ⟨[b64c (a / 4), b64c (a % 4 * 16), '=', '=']⟩
  | [a, b2] =>
    ⟨[b64c (a / 4), b64c (a % 4 * 16 + b2 / 16), b64c (b2 % 16 * 4), '=']⟩
  | a :: b2 :: c :: rest =>
    (⟨[b64c (a / 4), b64c (a % 4 * 16 + b2 / 16), b64c (b2 % 16 * 4 + c / 64),
       b64c (c % 64)]⟩ : String) ++ b64Encode rest

/-- UTF-8 bytes of a string. -/
def utf8Bytes (str : String) : List Nat :=
  str.toUTF8.toList.map (fun byte => byte.toNat)

/-- Does the text start with the pattern? -/
def leadsWith : List Char → List Char → Bool
  | [], _ => true
  | _ :: _, [] => false
  | a :: as, b :: bs => a == b && leadsWith as bs

/-- Does the pattern occur anywhere in the text? -/
def occursIn (pat : List Char) : List Char → Bool
  | [] => pat.isEmpty
  | c :: rest => leadsWith pat (c :: rest) || occursIn pat rest

/-- `str.includes(pat)`. -/
def strContains (str pat : String) : Bool :=
  occursIn pat.data str.data

/-! ## The Plan Catalog (`EmiralUserData.config.plans`) -/

/-- Plan identifiers in object-key (insertion) order: the total order
`free < basic < pro < enterprise`. -/
def planKeys : List String := ["free", "basic", "pro", "enterprise"]

def freePlan : JObj :=
  [("id", .s "free"), ("name", .s "Free Plan"), ("displayName", .s "Free"),
   ("price", .i 0), ("apiLimit", .i 1000), ("storageLimit", .s "10GB"),
   ("modelsLimit", .i 3), ("projectsLimit", .i 5),
   ("supportLevel", .s "community"),
   ("features", .arr [.s "Basic AI features", .s "Community support",
      .s "Standard processing speed", .s "Basic analytics"]),
   ("color", .s "#6c757d"), ("icon", .s "fas fa-user")]

def basicPlan : JObj :=
  [("id", .s "basic"), ("name", .s "Basic Plan"), ("displayName", .s "Basic"),
   ("price", .i 29), ("apiLimit", .i 10000), ("storageLimit", .s "50GB"),
   ("modelsLimit", .i 10), ("projectsLimit", .i 20),
   ("supportLevel", .s "email"),
   ("features", .arr [.s "All Free features", .s "Advanced AI implementation",
      .s "Email support (48h response)", .s "Custom model training",
      .s "API access", .s "Data export"]),
   ("color", .s "#17a2b8"), ("icon", .s "fas fa-star")]

def proPlan : JObj :=
  [("id", .s "pro"), ("name", .s "Pro Plan"), ("displayName", .s "Professional"),
   ("price", .i 99), ("apiLimit", .i 100000), ("storageLimit", .s "500GB"),
   ("modelsLimit", .i 50), ("projectsLimit", .i 100),
   ("supportLevel", .s "priority"),
   ("features", .arr [.s "All Basic features", .s "Priority support (12h response)",
      .s "Advanced analytics & insights", .s "Team collaboration (5 users)",
      .s "Custom integrations", .s "White-label options",
      .s "Advanced API features"]),
   ("color", .s "#6f42c1"), ("icon", .s "fas fa-crown")]

def enterprisePlan : JObj :=
  [("id", .s "enterprise"), ("name", .s "Enterprise Plan"),
   ("displayName", .s "Enterprise"),
   ("price", .i 299), ("apiLimit", .i (-1)), ("storageLimit", .s "Unlimited"),
   ("modelsLimit", .i (-1)), ("projectsLimit", .i (-1)),
   ("supportLevel", .s "dedicated"),
   ("features", .arr [.s "All Pro features", .s "Dedicated support manager",
      .s "Unlimited everything", .s "Custom development", .s "SLA guarantee",
      .s "On-premise deployment", .s "Unlimited team members",
      .s "Advanced security features"]),
   ("color", .s "#dc3545"), ("icon", .s "fas fa-building")]

/-- `this.config.plans[planId]`: catalog lookup by identifier. -/
def planEntry (planId : String) : Option JObj :=
  if planId = "free" then some freePlan
  else if planId = "basic" then some basicPlan
  else if planId = "pro" then some proPlan
  else if planId = "enterprise" then some enterprisePlan
  else none

/-- JS `Array.prototype.indexOf`: position of the element, `-1` if absent. -/
def jsIndexOf (l : List String) (x : String) : Int :=
  let idx := l.indexOf x
  if idx < l.length then (idx : Int) else -1

/-- `Object.keys(this.config.plans).indexOf(v)` where `v` is an arbitrary
value: only a catalog identifier string has an index `≥ 0`. -/
def planIndexOfV : JValue → Int
  | .s str => jsIndexOf planKeys str
  | _ => -1

/-- Index of a possibly-absent plan id (`indexOf(undefined) = -1`). -/
def planIndexOfO : Option JValue → Int
  | some v => planIndexOfV v
  | none => -1

/-! ## Avatar generators (`_getDefaultAvatar`, `generateUserAvatar`) -/

/-- `name.trim().split(/\s+/)`: JS yields `[""]` for a blank string and
nonempty whitespace-free parts otherwise. -/
def splitWsParts (str : String) : List String :=
  let t := str.trim
  if t = "" then [""]
  else (t.split (fun c => c.isWhitespace)).filter (fun x => x ≠ "")

/-- `p[0]` coerced into a string concatenation operand: JS gives the first
character, or the string "undefined" for an empty `p`. -/
def charAt0D (p : String) : String :=
  match p.data with
  | [] => "undefined"
  | c :: _ => String.singleton c

/-- Initials extraction shared by both avatar generators.  The inputs are the
already-defaulted `name` and `email` values (truthy, but possibly
non-strings, in which case the string methods throw a `TypeError`).  A
whitespace-only name makes `initials` `undefined` and the final
`toUpperCase()` throw. -/
def initialsOf (nameV emailV : JValue) : Except Unit String :=
  match nameV with
  | .s n =>
    if n = "Guest User" then
      match emailV with
      | .s e =>
        if e = "user@example.com" then .ok "U"
        else .ok (((e.splitOn "@").headD "").take 2)
      | _ => .error ()
    else
      match splitWsParts n with
      | [] => .error ()
      | [p] =>
        if 2 ≤ p.length then .ok (p.take 2)
        else
          match p.data with
          | [] => .error ()
          | c :: _ => .ok (String.singleton c)
      | p1 :: p2 :: rest => .ok (charAt0D p1 ++ charAt0D ((p2 :: rest).getLastD ""))
  | _ => .error ()

/-- `(userData?.k || dflt)`: defaulted, hence always-truthy, value. -/
def avatarStrArg (o : Option JValue) (dflt : String) : JValue :=
  match o with
  | some x => if jTruthy x then x else .s dflt
  | none => .s dflt

/-- `str.toLowerCase()` (throws on a truthy non-string). -/
def lowerOf : JValue → Except Unit String
  | .s str => .ok str.toLower
  | _ => .error ()

/-- The SVG template of `_getDefaultAvatar` (auth-popups), with the color and
initials interpolated. -/
def svgTemplate15 (bg initials : String) : String :=
  "<svg xmlns=\"http://www.w3.org/2000/svg\" width=\"100\" height=\"100\" viewBox=\"0 0 100 100\">\n                <circle cx=\"50\" cy=\"50\" r=\"50\" fill=\"" ++ bg ++
  "\"/>\n                <text x=\"50%\" y=\"50%\" font-family=\"-apple-system, BlinkMacSystemFont, \x27Segoe UI\x27, Roboto, sans-serif\" \n                      font-size=\"40\" font-weight=\"600\" fill=\"#FFFFFF\" text-anchor=\"middle\" \n                      dominant-baseline=\"middle\" style=\"user-select: none;\">" ++
  initials ++ "</text>\n            </svg>"

/-- The SVG template of `generateUserAvatar` (dashboard). -/
def svgTemplate10 (bg initials : String) : String :=
  "<svg xmlns=\"http://www.w3.org/2000/svg\" width=\"100\" height=\"100\" viewBox=\"0 0 100 100\">\n        <circle cx=\"50\" cy=\"50\" r=\"50\" fill=\"" ++ bg ++
  "\"/>\n        <text x=\"50%\" y=\"50%\" font-family=\"-apple-system, BlinkMacSystemFont, \x27Segoe UI\x27, Roboto, sans-serif\" \n              font-size=\"40\" font-weight=\"600\" fill=\"#FFFFFF\" text-anchor=\"middle\" \n              dominant-baseline=\"middle\">" ++ initials ++ "</text>\n    </svg>"

/-- Serialize an SVG string to the data URL
`"data:image/svg+xml;base64," + btoa(unescape(encodeURIComponent(svg)))`. -/
def svgDataUrl (svg : String) : String :=
  "data:image/svg+xml;base64," ++ b64Encode (utf8Bytes svg)

/-- Core of `_getDefaultAvatar`, as a function of the two properties it
reads.  The hash string is `(email || name || 'default').toLowerCase()`
where `email` has already been defaulted to the truthy
`'user@example.com'`, so it is always the defaulted email. -/
def defaultAvatarCore (nameP emailP : Option JValue) : Except Unit String :=
  let nameV := avatarStrArg nameP "Guest User"
  let emailV := avatarStrArg emailP "user@example.com"
  match initialsOf nameV emailV with
  | .error e => .error e
  | .ok raw =>
    let initials := raw.toUpper
    match lowerOf emailV with
    | .error e => .error e
    | .ok str =>
      .ok (svgDataUrl (svgTemplate15 (avatarColor15 str) initials))

/-- `EmiralUserData._getDefaultAvatar(userData)`
(`src/js/auth-popups.js:3039`). -/
def getDefaultAvatar (u : JObj) : Except Unit String :=
  defaultAvatarCore (jLookup u "name") (jLookup u "email")

/-- Core of the dashboard's `generateUserAvatar`, identical up to palette and
whitespace of the SVG template. -/
def userAvatarCore (nameP emailP : Option JValue) : Except Unit String :=
  let nameV := avatarStrArg nameP "Guest User"
  let emailV := avatarStrArg emailP "user@example.com"
  match initialsOf nameV emailV with
  | .error e => .error e
  | .ok raw =>
    let initials := raw.toUpper
    match lowerOf emailV with
    | .error e => .error e
    | .ok str =>
      .ok (svgDataUrl (svgTemplate10 (avatarColor10 str) initials))

/-- `generateUserAvatar(userData)` (`src/js/dashboard.js:107`). -/
def generateUserAvatar (u : JObj) : Except Unit String :=
  userAvatarCore (jLookup u "name") (jLookup u "email")

/-! ## Enrichment pipeline of `getUserData` -/

/-- `userData.planId || subscription?.planId || 'free'`. -/
def resolvePlanId (ud : JObj) (sub : Option JValue) : JValue :=
  if jTruthyO (jLookup ud "planId") then optJ (jLookup ud "planId")
  else if jTruthyO (jGetField sub "planId") then optJ (jGetField sub "planId")
  else .s "free"

/-- `this.config.plans[planId] || this.config.plans.free`. -/
def resolvePlanData : JValue → JObj
  | .s pid => (planEntry pid).getD freePlan
  | _ => freePlan

/-- The `profileImage` IIFE in `getUserData`: keep a real image URL,
regenerate the avatar when the image is falsy or matches a placeholder
substring; `includes` on a truthy non-string throws. -/
def profileImageOf (ud : JObj) : Except Unit JValue :=
  match jLookup ud "profileImage" with
  | some v =>
    if jTruthy v then
      match v with
      | .s img =>
        if strContains img "default" || strContains img "emiral" ||
            strContains img "pexels" then
          (getDefaultAvatar ud).map JValue.s
        else .ok (.s img)
      | .iso m => .ok (.iso m)
      | _ => .error ()
    else (getDefaultAvatar ud).map JValue.s
  | none => (getDefaultAvatar ud).map JValue.s

/-- The usage seed: sum of the email's character codes, `42` for a falsy
email; `split('')` on a truthy non-string throws.  An `iso` value is a
digit/punctuation string whose code sum is a function of its millisecond
value, abstracted as that value. -/
def seedOf (o : Option JValue) : Except Unit Int :=
  if jTruthyO o then
    match o with
    | some (.s e) => .ok ((e.data.foldl (fun a c => a + c.toNat) 0 : Nat) : Int)
    | some (.iso m) => .ok m
    | _ => .error ()
  else .ok 42

/-- `_calculateUsage(planId, userData)` (`src/js/auth-popups.js:3098`).
The `Math.sin(seed)`-derived mock metrics are deterministic functions of the
seed and the plan, represented by `JValue.mock`; plan limits and the
integer-exact metrics (`accuracy = 70 + 7·idx`, `responseTime = 200 - 25·idx`,
`averageProcessingTime = max 50 (150 - 20·idx)`) are computed exactly;
`uptime` (`95 + 1.25·idx`) and `errorRate` (`max 0.1 (5 - 1.2·idx)`) are
non-integer functions of the plan index alone. -/
def calculateUsage (planIdV : JValue) (ud : JObj) : Except Unit JObj :=
  match (match planIdV with | .s pid => planEntry pid | _ => none) with
  | none => .ok []
  | some plan =>
    match seedOf (jLookup ud "email") with
    | .error e => .error e
    | .ok seed =>
      let idx : Int := planIndexOfV planIdV
      .ok [("apiCalls", .mock "apiCalls" seed idx),
           ("apiLimit", optJ (jLookup plan "apiLimit")),
           ("apiPercentage", .mock "apiPercentage" seed idx),
           ("storageUsed", .mock "storageUsed" seed idx),
           ("storageLimit", optJ (jLookup plan "storageLimit")),
           ("storagePercentage", .mock "storagePercentage" seed idx),
           ("modelsActive", .mock "modelsActive" seed idx),
           ("modelsLimit", optJ (jLookup plan "modelsLimit")),
           ("projectsCount", .mock "projectsCount" seed idx),
           ("projectsLimit", optJ (jLookup plan "projectsLimit")),
           ("accuracy", .i (70 + idx * 7)),
           ("responseTime", .i (200 - idx * 25)),
           ("uptime", .mock "uptime" idx 0),
           ("requestsToday", .mock "requestsToday" seed idx),
           ("requestsThisMonth", .mock "requestsThisMonth" seed idx),
           ("errorRate", .mock "errorRate" idx 0),
           ("averageProcessingTime", .i (max 50 (150 - idx * 20)))]

/-- `_getPermissions(planId)` (`src/js/auth-popups.js:3182`): boolean gates
on the plan's index in the catalog order. -/
def getPermissions (planIdV : JValue) : JObj :=
  let idx := planIndexOfV planIdV
  [("canUseAPI", .b (decide (1 ≤ idx))),
   ("canExportData", .b (decide (1 ≤ idx))),
   ("canCustomizeModels", .b (decide (1 ≤ idx))),
   ("canAccessAnalytics", .b (decide (0 ≤ idx))),
   ("canUseAdvancedAnalytics", .b (decide (2 ≤ idx))),
   ("canInviteTeamMembers", .b (decide (2 ≤ idx))),
   ("canUseWhiteLabel", .b (decide (2 ≤ idx))),
   ("canAccessPrioritySupport", .b (decide (2 ≤ idx))),
   ("canRequestCustomFeatures", .b (decide (3 ≤ idx))),
   ("hasUnlimitedAPI", .b (decide (3 ≤ idx))),
   ("hasUnlimitedStorage", .b (decide (3 ≤ idx))),
   ("hasUnlimitedProjects", .b (decide (3 ≤ idx))),
   ("showUpgradePrompts", .b (decide (idx < 3))),
   ("showUsageLimits", .b (decide (idx < 3))),
   ("showAds", .b (decide (idx = 0)))]

/-- `_getUserMetrics(userData)` (`src/js/auth-popups.js:3209`).
`loginCount`/`totalApiCalls` are read from auxiliary storage keys outside
the modelled state and no claim inspects them; a missing/invalid `loginTime`
makes `accountAge` `NaN`. -/
def getUserMetrics (ud : JObj) (now : Int) : JObj :=
  [("accountAge",
     match jLookup ud "loginTime" with
     | some (.iso t) => .i (Int.fdiv (now - t) 86400000)
     | some (.i t) => .i (Int.fdiv (now - t) 86400000)
     | _ => .mock "accountAgeNaN" 0 0),
   ("lastActive", .iso now),
   ("loginCount", .mock "loginCount" 0 0),
   ("totalApiCalls", .mock "totalApiCalls" 0 0),
   ("favoriteFeatures", .arr [.s "AI Chat", .s "Model Training",
      .s "Analytics Dashboard"])]

/-- `Math.ceil(a / b)` for integers, `b > 0`. -/
def ceilDiv (a b : Int) : Int := -(Int.fdiv (-a) b)

/-- Spread of an arbitrary value into an object literal: object fields,
array elements under their index keys, nothing for primitives. -/
def spreadFields : JValue → List (String × JValue)
  | .obj fs => fs
  | .arr vs => vs.enum.map (fun p => (toString p.1, p.2))
  | _ => []

/-- `_enhanceSubscription(subscription, planData)`
(`src/js/auth-popups.js:3153`): the inactive stub for a falsy subscription,
otherwise the subscription spread together with the derived
`daysRemaining`/`isExpiringSoon`/`isExpired` fields (NaN semantics — both
comparisons false — when `endDate` is not a date) and the plan's features
and support level.  `formattedEndDate` is a locale-formatted string,
abstracted as a function of the end date. -/
def enhanceSubscription (sub : Option JValue) (planData : JObj) (now : Int) :
    JValue :=
  if jTruthyO sub = false then
    .obj [("status", .s "inactive"), ("planId", .s "free"),
          ("planName", .s "Free Plan")]
  else
    let sfs := spreadFields (optJ sub)
    let dR : Option Int :=
      match jGetField sub "endDate" with
      | some (.iso t) => some (ceilDiv (t - now) 86400000)
      | some (.i t) => some (ceilDiv (t - now) 86400000)
      | _ => none
    .obj (jMergeFields sfs
      [("daysRemaining",
         match dR with | some d => .i d | none => .mock "daysRemainingNaN" 0 0),
       ("isExpiringSoon",
         .b (match dR with
             | some d => decide (d ≤ 7) && decide (0 < d)
             | none => false)),
       ("isExpired",
         .b (match dR with | some d => decide (d ≤ 0) | none => false)),
       ("formattedEndDate", .mock "formattedEndDate" (dR.getD 0) 0),
       ("features", optJ (jLookup planData "features")),
       ("supportLevel", optJ (jLookup planData "supportLevel"))])

/-- The `completeUserData` object literal of `getUserData`
(`src/js/auth-popups.js:2449`), given the already-computed fallible parts.
`id` falls back to `_generateUserId()` (a fresh `'user_' + Date.now() + '_'
+ random` string, abstracted as a function of the call time — no claim
reads it). -/
def assembleEnriched (ud : JObj) (sub set : Option JValue) (now : Int)
    (planIdV : JValue) (planData : JObj) (pimg : JValue) (usage : JObj) :
    JObj :=
  [("id", if jTruthyO (jLookup ud "id") then optJ (jLookup ud "id")
          else .mock "generatedUserId" now 0),
   ("name", if jTruthyO (jLookup ud "name") then optJ (jLookup ud "name")
            else .s "Guest User"),
   ("email", if jTruthyO (jLookup ud "email") then optJ (jLookup ud "email")
             else .s "guest@emiralai.com"),
   ("profileImage", pimg),
   ("plan", optJ (jLookup planData "name")),
   ("planId", planIdV),
   ("planData", .obj planData),
   ("usage", .obj usage),
   ("subscription", enhanceSubscription sub planData now),
   ("settings", if jTruthyO set then optJ set else .obj []),
   ("session", .obj [("loginTime", optJ (jLookup ud "loginTime")),
                     ("lastActivity", .iso now),
                     ("expiresAt", optJ (jLookup ud "sessionExpiry")),
                     ("isActive", .b true)]),
   ("permissions", .obj (getPermissions planIdV)),
   ("metrics", .obj (getUserMetrics ud now))]

/-- The enrichment step of `getUserData`: fails exactly when one of its two
fallible components (the profile-image IIFE, `_calculateUsage`) throws;
neither depends on the call time. -/
def buildEnriched (ud : JObj) (sub set : Option JValue) (now : Int) :
    Except Unit JObj :=
  let planIdV := resolvePlanId ud sub
  let planData := resolvePlanData planIdV
  match profileImageOf ud with
  | .error e => .error e
  | .ok pimg =>
    match calculateUsage planIdV ud with
    | .error e => .error e
    | .ok usage => .ok (assembleEnriched ud sub set now planIdV planData pimg usage)

/-- `_isSessionValid(userData)` (`src/js/auth-popups.js:3091`): a falsy
`sessionExpiry` never expires; otherwise `new Date() < new Date(expiry)`
(false — hence invalid — for an unparsable date). -/
def isSessionValid (ud : JObj) (now : Int) : Bool :=
  match jLookup ud "sessionExpiry" with
  | none => true
  | some v =>
    if jTruthy v = false then true
    else
      match v with
      | .iso e => decide (now < e)
      | .i e => decide (now < e)
      | _ => false

/-- `_validateUserData(data)` (`src/js/auth-popups.js:3018`): `data` must be
a non-null `typeof 'object'` value (arrays included); a truthy `email` must
pass the email regex (with JS ToString coercion for non-strings); a truthy
`planId` must be a catalog key. -/
def validateUserData (d : JValue) : Bool :=
  match d with
  | .obj fs =>
    (match jLookup fs "email" with
     | some v => if jTruthy v then
         (match v with
          | .s e => isValidEmail e
          | .arr [.s e] => isValidEmail e
          | _ => false)
       else true
     | none => true) &&
    (match jLookup fs "planId" with
     | some v => if jTruthy v then
         (match v with
          | .s pid => (planEntry pid).isSome
          | _ => false)
       else true
     | none => true)
  | .arr _ => true
  | _ => false

/-- `_calculateEndDate(planId)` (`src/js/auth-popups.js:3305`).  The free
branch uses `date.setFullYear(year + 100)`, a calendar-year increment,
embedded as 100 × 365 days — the spec only requires "about 100 years,
effectively non-expiring"; paid plans get exactly 30 days. -/
def calculateEndDate (planId : String) (now : Int) : Int :=
  if planId = "free" then now + 100 * 365 * 86400000
  else now + 30 * 86400000

/-! ## Manager state and public operations -/

/-- An event fired through `_triggerEvent` (or, with a `tabNotify` name,
`_notifyOtherTabs`): name and payload. -/
abbrev Ev := String × Option JValue

/-- The manager's mutable state: the three prefixed storage keys, the
in-memory cache `_state.currentUser` and the offline queue. -/
structure MState where
  userDataS : Option JObj
  subscrS : Option JValue
  settingsS : Option JValue
  currentUser : Option JObj
  offlineQueue : List JValue

/-- Fresh state: empty storage, no cache, empty queue. -/
def initState : MState := ⟨none, none, none, none, []⟩

/-- `clearUserData(clearSettings)` (`src/js/auth-popups.js:2792`): removes
the user-data and subscription keys (settings only on request), empties the
cache, fires the logout events.  (The sync timer it also cancels carries no
state a claim depends on.) -/
def clearUserData (s : MState) (clearSettings : Bool) : MState × List Ev :=
  ({ s with userDataS := none, subscrS := none,
            settingsS := if clearSettings then none else s.settingsS,
            currentUser := none },
   [("userLoggedOut", none), ("tabNotifyUserLoggedOut", none)])

/-- `getUserData(forceRefresh)` (`src/js/auth-popups.js:2422`): cache hit
unless forced; `null` for empty storage; clear-and-`null` for an expired
session; otherwise enrich, cache, fire `dataLoaded`.  The surrounding
`try/catch` turns an enrichment throw into `null`. -/
def getUserData (s : MState) (now : Int) (force : Bool) :
    MState × Option JObj × List Ev :=
  if force = false ∧ s.currentUser.isSome = true then (s, s.currentUser, [])
  else
    match s.userDataS with
    | none => (s, none, [])
    | some ud =>
      if isSessionValid ud now = false then
        let c := clearUserData s false
        (c.1, none, c.2)
      else
        match buildEnriched ud s.subscrS s.settingsS now with
        | .error _ => (s, none, [])
        | .ok e =>
          ({ s with currentUser := some e }, some e,
           [("dataLoaded", some (.obj e))])

/-- `saveUserData(data)` (`src/js/auth-popups.js:2511`): validate, merge the
patch over `getUserData() || {}` with a fresh `lastModified`, strip
`subscription`/`settings`/`usage`/`metrics`/`permissions` out of the
persisted record, persist truthy `subscription`/`settings` under their own
keys, cache the full merged object, fire the update events.  A validation
failure is caught: the patch goes to the offline queue and `false` is
returned. -/
def saveUserData (s : MState) (now : Int) (d : JValue) :
    MState × Bool × List Ev :=
  if validateUserData d = true then
    let g := getUserData s now false
    let cur : JObj := (g.2.1).getD []
    let merged := jInsert (jMergeFields cur (spreadFields d)) "lastModified" (.iso now)
    let stored := jEraseMany merged
      ["subscription", "settings", "usage", "metrics", "permissions"]
    let subV := jLookup merged "subscription"
    let setV := jLookup merged "settings"
    ({ g.1 with
        userDataS := some stored,
        subscrS := if jTruthyO subV then subV else g.1.subscrS,
        settingsS := if jTruthyO setV then setV else g.1.settingsS,
        currentUser := some merged },
     true,
     g.2.2 ++ [("dataUpdated", some (.obj merged)),
               ("tabNotifyUserDataUpdated", some (.obj merged))])
  else
    ({ s with offlineQueue := s.offlineQueue ++ [d] }, false, [])

/-- `updateUserPlan(planId, subscriptionData)` (`src/js/auth-popups.js:2575`):
fails (caught throw) on an unknown plan or with no user loaded; otherwise
builds the subscription object — defaults spread-overridable by
`subscriptionData` —, persists it, calls `saveUserData({planId, plan})`
(whose merge re-persists the enriched previous subscription over it), and
fires `planChanged` with the old and new plan ids plus the success
notification. -/
def updateUserPlan (s : MState) (now : Int) (planId : String)
    (subD : Option JObj) : MState × Bool × List Ev :=
  match planEntry planId with
  | none => (s, false, [])
  | some planData =>
    let g := getUserData s now false
    match g.2.1 with
    | none => (g.1, false, g.2.2)
    | some cur =>
      let lk := fun (k : String) =>
        match subD with
        | some o => jLookup o k
        | none => (none : Option JValue)
      let base : JObj :=
        [("planId", .s planId),
         ("planName", optJ (jLookup planData "name")),
         ("startDate", if jTruthyO (lk "startDate") then optJ (lk "startDate")
                       else .iso now),
         ("endDate", if jTruthyO (lk "endDate") then optJ (lk "endDate")
                     else .iso (calculateEndDate planId now)),
         ("status", .s "active"),
         ("autoRenew",
           .b (match lk "autoRenew" with | some (.b false) => false | _ => true)),
         ("paymentMethod",
           if jTruthyO (lk "paymentMethod") then optJ (lk "paymentMethod")
           else .s "unknown"),
         ("amount", optJ (jLookup planData "price")),
         ("currency", if jTruthyO (lk "currency") then optJ (lk "currency")
                      else .s "USD")]
      let subscription := jMergeFields base (subD.getD [])
      let s2 := { g.1 with subscrS := some (.obj subscription) }
      let sres := saveUserData s2 now
        (.obj [("planId", .s planId), ("plan", optJ (jLookup planData "name"))])
      (sres.1, true,
       g.2.2 ++ sres.2.2 ++
       [("planChanged", some (.obj
          [("oldPlan", optJ (jLookup cur "planId")),
           ("newPlan", .s planId),
           ("subscription", .obj subscription)])),
        ("notification", some (.obj
          [("message", .s "Plan updated successfully!"),
           ("type", .s "success")]))])

/-- `hasPlan(requiredPlan)` (`src/js/auth-popups.js:2717`): `false` with no
user; otherwise `indexOf(userData.planId) >= indexOf(requiredPlan)` in the
catalog key order. -/
def hasPlan (s : MState) (now : Int) (req : String) :
    MState × Bool × List Ev :=
  let g := getUserData s now false
  match g.2.1 with
  | none => (g.1, false, g.2.2)
  | some u =>
    (g.1, decide (jsIndexOf planKeys req ≤ planIndexOfO (jLookup u "planId")),
     g.2.2)

/-- `hasAccess(feature)` (`src/js/auth-popups.js:2703`): `false` with no
user; otherwise `userData.permissions[feature] === true` — with no
`try/catch`, so the property access throws when `permissions` is absent
from the cached record. -/
def hasAccess (s : MState) (now : Int) (feature : String) :
    MState × Except Unit Bool × List Ev :=
  let g := getUserData s now false
  match g.2.1 with
  | none => (g.1, .ok false, g.2.2)
  | some u =>
    match jIndexThrow (jLookup u "permissions") feature with
    | .error e => (g.1, .error e, g.2.2)
    | .ok v =>
      (g.1, .ok (match v with | some (.b true) => true | _ => false), g.2.2)

/-- `getUsageStats(metric)` (`src/js/auth-popups.js:2652`): `null` with no
user; `usage[metric] || null` for a named metric (throwing when `usage` is
absent); the whole usage object otherwise. -/
def getUsageStats (s : MState) (now : Int) (metric : Option String) :
    MState × Except Unit (Option JValue) × List Ev :=
  let g := getUserData s now false
  match g.2.1 with
  | none => (g.1, .ok none, g.2.2)
  | some u =>
    match metric with
    | some m =>
      match jIndexThrow (jLookup u "usage") m with
      | .error e => (g.1, .error e, g.2.2)
      | .ok v => (g.1, .ok (if jTruthyO v then v else none), g.2.2)
    | none => (g.1, .ok (jLookup u "usage"), g.2.2)

/-! ## The event broadcaster (`on` / `_triggerEvent`) -/

/-- A registered callback: its identity (JS function reference) and its
behaviour — a result or a thrown exception. -/
structure Listener where
  lid : Nat
  fn : JValue → Except String JValue

/-- One `callback(data)` call inside the per-listener `try/catch` of
`_triggerEvent`: a thrown exception is caught and logged (`inl`), a normal
return is `inr`. -/
def runListener (l : Listener) (p : JValue) : Sum String JValue :=
  match l.fn p with
  | .ok v => .inr v
  | .error e => .inl e

/-- `_triggerEvent` over the listener set (`src/js/auth-popups.js:3332`):
synchronous `forEach` in insertion order, each call individually guarded by
`try/catch`. -/
def triggerListeners : List Listener → JValue → List (Nat × Sum String JValue)
  | [], _ => []
  | l :: rest, p => (l.lid, runListener l p) :: triggerListeners rest p

/-- `on(event, callback)` (`src/js/auth-popups.js:2884`): `Set.add` —
append a new callback, keep the set unchanged when the same function is
already registered. -/
def onRegister (ls : List Listener) (l : Listener) : List Listener :=
  if ls.any (fun x => x.lid = l.lid) then ls else ls ++ [l]

/-! ## Behavioural lemmas about `getUserData` -/

theorem getUserData_cacheHit {s : MState} {u : JObj} (h : s.currentUser = some u)
    (t : Int) : getUserData s t false = (s, some u, []) := by
  simp [getUserData, h]

theorem getUserData_ud_none {s : MState} (hcn : s.currentUser = none)
    (hud : s.userDataS = none) (t : Int) (f : Bool) :
    getUserData s t f = (s, none, []) := by
  simp [getUserData, hcn, hud]

/-- The enrichment step fails independently of the call time: its two
fallible components read only the stored record. -/
theorem buildEnriched_error_time {ud : JObj} {sub set : Option JValue}
    {t t' : Int} (h : buildEnriched ud sub set t = .error ()) :
    buildEnriched ud sub set t' = .error () := by
  unfold buildEnriched at h ⊢
  cases hp : profileImageOf ud <;>
    cases hcu : calculateUsage (resolvePlanId ud sub) ud <;>
    simp_all

/-- Case analysis of a non-cached `getUserData` call. -/
theorem getUserData_cases (s : MState) (t : Int) (hcn : s.currentUser = none) :
    (s.userDataS = none ∧ getUserData s t false = (s, none, [])) ∨
    (∃ ud, s.userDataS = some ud ∧ isSessionValid ud t = false ∧
      getUserData s t false =
        ({ s with userDataS := none, subscrS := none, currentUser := none },
         none, [("userLoggedOut", none), ("tabNotifyUserLoggedOut", none)])) ∨
    (∃ ud, s.userDataS = some ud ∧ isSessionValid ud t = true ∧
      buildEnriched ud s.subscrS s.settingsS t = .error () ∧
      getUserData s t false = (s, none, [])) ∨
    (∃ ud e, s.userDataS = some ud ∧ isSessionValid ud t = true ∧
      buildEnriched ud s.subscrS s.settingsS t = .ok e ∧
      getUserData s t false =
        ({ s with currentUser := some e }, some e,
         [("dataLoaded", some (.obj e))])) := by
  cases hud : s.userDataS with
  | none => exact Or.inl ⟨rfl, getUserData_ud_none hcn hud t false⟩
  | some ud =>
    by_cases hsv : isSessionValid ud t = false
    · refine Or.inr (Or.inl ⟨ud, rfl, hsv, ?_⟩)
      simp [getUserData, hcn, hud, hsv, clearUserData]
    · have hsv' : isSessionValid ud t = true := by
        cases hx : isSessionValid ud t
        · exact absurd hx hsv
        · rfl
      cases hb : buildEnriched ud s.subscrS s.settingsS t with
      | error e =>
        refine Or.inr (Or.inr (Or.inl ⟨ud, rfl, hsv', ?_, ?_⟩))
        · cases e; exact hb
        · simp [getUserData, hcn, hud, hsv, hb]
      | ok v =>
        refine Or.inr (Or.inr (Or.inr ⟨ud, v, rfl, hsv', hb, ?_⟩))
        simp [getUserData, hcn, hud, hsv, hb]

theorem getUserData_cache_of_some {s : MState} {t : Int} {u : JObj}
    (h : (getUserData s t false).2.1 = some u) :
    (getUserData s t false).1.currentUser = some u := by
  cases hx : s.currentUser with
  | some w =>
    rw [getUserData_cacheHit hx t] at h ⊢
    exact hx.trans h
  | none =>
    rcases getUserData_cases s t hx with ⟨hud, heq⟩ | ⟨ud, hud, hsv, heq⟩ |
      ⟨ud, hud, hsv, hb, heq⟩ | ⟨ud, e, hud, hsv, hb, heq⟩ <;>
      rw [heq] at h ⊢ <;> simp_all

/-- Two `getUserData` reads with no intervening write return the same
record (the second is served from the cache the first left behind, or both
fail). -/
theorem getUserData_idem (s : MState) (t t' : Int) :
    (getUserData (getUserData s t false).1 t' false).2.1 =
      (getUserData s t false).2.1 := by
  cases hx : s.currentUser with
  | some u => rw [getUserData_cacheHit hx t, getUserData_cacheHit hx t']
  | none =>
    rcases getUserData_cases s t hx with ⟨hud, heq⟩ | ⟨ud, hud, hsv, heq⟩ |
      ⟨ud, hud, hsv, hb, heq⟩ | ⟨ud, e, hud, hsv, hb, heq⟩
    · rw [heq]
      simp [getUserData, hx, hud]
    · rw [heq]
      simp [getUserData]
    · rw [heq]
      show (getUserData s t' false).2.1 = none
      rcases getUserData_cases s t' hx with ⟨hud', heq'⟩ | ⟨ud', hud', hsv', heq'⟩ |
        ⟨ud', hud', hsv', hb', heq'⟩ | ⟨ud', e', hud', hsv', hb', heq'⟩
      · rw [heq']
      · rw [heq']
      · rw [heq']
      · rw [hud] at hud'
        injection hud' with hh
        subst hh
        exact absurd hb' (by simp [buildEnriched_error_time hb])
    · rw [heq]
      show (getUserData { s with currentUser := some e } t' false).2.1 = some e
      rw [getUserData_cacheHit rfl t']

/-- `saveUserData` under a cache hit, spelled out. -/
def mergedOf (cur : JObj) (fs : List (String × JValue)) (t : Int) : JObj :=
  jInsert (jMergeFields cur fs) "lastModified" (.iso t)

theorem saveUserData_cached {s : MState} {cur : JObj}
    {fs : List (String × JValue)} {t : Int}
    (hc : s.currentUser = some cur) (hval : validateUserData (.obj fs) = true) :
    saveUserData s t (.obj fs) =
      ({ s with
          userDataS := some (jEraseMany (mergedOf cur fs t)
            ["subscription", "settings", "usage", "metrics", "permissions"]),
          subscrS := if jTruthyO (jLookup (mergedOf cur fs t) "subscription")
                     then jLookup (mergedOf cur fs t) "subscription"
                     else s.subscrS,
          settingsS := if jTruthyO (jLookup (mergedOf cur fs t) "settings")
                       then jLookup (mergedOf cur fs t) "settings"
                       else s.settingsS,
          currentUser := some (mergedOf cur fs t) },
       true,
       [("dataUpdated", some (.obj (mergedOf cur fs t))),
        ("tabNotifyUserDataUpdated", some (.obj (mergedOf cur fs t)))]) := by
  simp [saveUserData, hval, getUserData_cacheHit hc, spreadFields, mergedOf]

theorem neg_one_le_jsIndexOf (l : List String) (x : String) :
    -1 ≤ jsIndexOf l x := by
  unfold jsIndexOf
  by_cases h : List.indexOf x l < l.length <;> simp [h] <;> omega

theorem neg_one_le_planIndexOfO (o : Option JValue) : -1 ≤ planIndexOfO o := by
  cases o with
  | none => simp [planIndexOfO]
  | some v =>
    cases v <;> simp [planIndexOfO, planIndexOfV] <;>
      exact neg_one_le_jsIndexOf _ _

theorem getD_ne_of_nodup {l : List String} (hnd : l.Nodup) {i j : Nat}
    (hi : i < l.length) (hj : j < l.length) (hij : i ≠ j) :
    l.getD i "" ≠ l.getD j "" := by
  intro h
  rw [List.getD_eq_getElem?_getD, List.getD_eq_getElem?_getD] at h
  rw [List.getElem?_eq_getElem hi, List.getElem?_eq_getElem hj] at h
  simp only [Option.getD_some] at h
  exact hij (List.Nodup.getElem_inj_iff hnd |>.mp h)

/-! ## Concrete scenarios (reachable through the public API) -/

/-- A first login payload: a valid patch with no plan. -/
def firstSavePatch : JValue :=
  .obj [("name", .s "Ada"), ("email", .s "ada@example.com")]

/-- The manager state after one `saveUserData` from a fresh manager. -/
def firstSaveState : MState := (saveUserData initState 1000 firstSavePatch).1

/-- A login payload carrying a session expiry 1500 ms after the epoch. -/
def c1Patch : JValue :=
  .obj [("name", .s "Ada"), ("email", .s "ada@example.com"),
        ("sessionExpiry", .iso 1500)]

/-- State after saving `c1Patch` at t = 1000: the stored record expires at
t = 1500 and the cache holds the merged record. -/
def c1State : MState := (saveUserData initState 1000 c1Patch).1

/-- A state whose storage holds an expired record and whose cache is empty. -/
def c1ExpState : MState :=
  { initState with userDataS := some [("sessionExpiry", .iso 100)] }

/-- A stored record with every identity field present and a non-placeholder
profile image (so enrichment keeps it). -/
def richRecord : JObj :=
  [("id", .s "u1"), ("name", .s "Ada Lovelace"),
   ("email", .s "ada@example.com"),
   ("profileImage", .s "https://img.example/a.png"), ("planId", .s "pro")]

/-- Storage-only state for `richRecord`: the next read enriches it. -/
def richState : MState := { initState with userDataS := some richRecord }

/-- The enriched record the first read of `richState` returns. -/
def richCur : JObj := ((getUserData richState 2000 false).2.1).getD []

/-- State after saving an enterprise-plan login. -/
def entState : MState :=
  (saveUserData initState 1000
    (.obj [("email", .s "ent@ex.co"), ("planId", .s "enterprise")])).1

/-- The record loaded from `entState`. -/
def entCur : JObj := ((getUserData entState 2000 false).2.1).getD []

/-- State after saving a basic-plan login. -/
def basState : MState :=
  (saveUserData initState 1000
    (.obj [("email", .s "bas@ex.co"), ("planId", .s "basic")])).1

/-! ## Claim C1 -/

/-- Claim C1 counterexample: a state reachable by one `saveUserData` whose
stored record has `sessionExpiry` strictly in the past at the time of the
call, yet `getUserData()` — served from the in-memory cache — returns a
non-null record and leaves the expired record in storage, contradicting
"an expired record is never returned by any read, including a read served
from the in-memory cache". -/
theorem C1_counterexample :
    (saveUserData initState 1000 c1Patch).2.1 = true ∧
    jLookup (c1State.userDataS.getD []) "sessionExpiry" = some (.iso 1500) ∧
    ((1500 : Int) < 2000) ∧
    ((getUserData c1State 2000 false).2.1).isSome = true ∧
    (getUserData c1State 2000 false).1.userDataS = c1State.userDataS :=
  ⟨rfl, rfl, by decide, rfl, rfl⟩

/-- Claim C1 (amended): for every read that consults storage — the cache is
empty or `forceRefresh` is set — a stored record whose `sessionExpiry` is
strictly in the past makes `getUserData` return `null`, remove the stored
record (and subscription) and fire the logout events.  Cache-served reads
are exempt, as `C1_counterexample` shows. -/
theorem C1_expired_storage_read (s : MState) (now e : Int) (force : Bool)
    (ud : JObj)
    (hc : s.currentUser = none ∨ force = true)
    (hud : s.userDataS = some ud)
    (hexp : jLookup ud "sessionExpiry" = some (.iso e))
    (hpast : e < now) :
    getUserData s now force =
      ({ s with userDataS := none, subscrS := none, currentUser := none },
       none, [("userLoggedOut", none), ("tabNotifyUserLoggedOut", none)]) := by
  have hsv : isSessionValid ud now = false := by
    simp [isSessionValid, hexp, jTruthy]
    omega
  rcases hc with hc | hc
  · simp [getUserData, hc, hud, hsv, clearUserData]
  · simp [getUserData, hc, hud, hsv, clearUserData]

theorem C1_expired_storage_read_witness :
    (getUserData c1ExpState 200 false).2.1 = none ∧
    (getUserData c1ExpState 200 false).1.userDataS = none := by
  have h := C1_expired_storage_read c1ExpState 200 100 false
    [("sessionExpiry", .iso 100)] (Or.inl rfl) rfl rfl (by decide)
  exact ⟨by rw [h], by rw [h]⟩

/-! ## Claim C4 -/

/-- Claim C4: a patch that fails validation makes `saveUserData` return
`false` and leaves the stored user record, subscription, settings and the
in-memory cache untouched (the rejected patch is only appended to the
offline replay queue), and a patch carrying a truthy email rejected by the
email regex always fails validation. -/
theorem C4_invalid_save_rejected :
    (∀ (s : MState) (t : Int) (d : JValue), validateUserData d = false →
      (saveUserData s t d).2.1 = false ∧
      (saveUserData s t d).1.userDataS = s.userDataS ∧
      (saveUserData s t d).1.subscrS = s.subscrS ∧
      (saveUserData s t d).1.settingsS = s.settingsS ∧
      (saveUserData s t d).1.currentUser = s.currentUser ∧
      (saveUserData s t d).2.2 = []) ∧
    (∀ (fs : List (String × JValue)) (e : String),
      jLookup fs "email" = some (.s e) → e ≠ "" → isValidEmail e = false →
      validateUserData (.obj fs) = false) := by
  constructor
  · intro s t d hv
    simp [saveUserData, hv]
  · intro fs e he hne hbad
    simp [validateUserData, he, jTruthy, hne, hbad]

theorem C4_invalid_save_witness :
    isValidEmail "bad-email" = false ∧
    validateUserData (.obj [("email", .s "bad-email")]) = false ∧
    (saveUserData initState 1000 (.obj [("email", .s "bad-email")])).2.1 = false ∧
    (saveUserData initState 1000 (.obj [("email", .s "bad-email")])).1.userDataS
      = initState.userDataS := by
  refine ⟨rfl, ?_, ?_, ?_⟩
  · exact C4_invalid_save_rejected.2 [("email", .s "bad-email")] "bad-email"
      rfl (by decide) rfl
  · exact (C4_invalid_save_rejected.1 initState 1000
      (.obj [("email", .s "bad-email")]) rfl).1
  · exact (C4_invalid_save_rejected.1 initState 1000
      (.obj [("email", .s "bad-email")]) rfl).2.1

/-! ## Claim C6 -/

/-- Claim C6: `hasPlan` respects the catalog order — for a loaded user it
returns exactly `indexOf(userData.planId) ≥ indexOf(requiredPlan)` over the
key order `free, basic, pro, enterprise` (whose indices are 0..3); with no
user loaded both `hasPlan` and `hasAccess` return `false`; concretely, an
enterprise user passes `hasPlan("pro")` and a basic user does not. -/
theorem C6_plan_order :
    (∀ (s : MState) (t : Int) (p : String) (u : JObj),
      (getUserData s t false).2.1 = some u →
      (hasPlan s t p).2.1 =
        decide (jsIndexOf planKeys p ≤ planIndexOfO (jLookup u "planId"))) ∧
    (jsIndexOf planKeys "free" = 0 ∧ jsIndexOf planKeys "basic" = 1 ∧
      jsIndexOf planKeys "pro" = 2 ∧ jsIndexOf planKeys "enterprise" = 3) ∧
    (∀ (s : MState) (t : Int) (p f : String),
      (getUserData s t false).2.1 = none →
      (hasPlan s t p).2.1 = false ∧ (hasAccess s t f).2.1 = .ok false) ∧
    (hasPlan entState 2000 "pro").2.1 = true ∧
    (hasPlan basState 2000 "pro").2.1 = false := by
  refine ⟨?_, ⟨by decide, by decide, by decide, by decide⟩, ?_, rfl, rfl⟩
  · intro s t p u hu
    simp [hasPlan, hu]
  · intro s t p f hn
    exact ⟨by simp [hasPlan, hn], by simp [hasAccess, hn]⟩

theorem C6_plan_order_witness :
    (getUserData entState 2000 false).2.1 = some entCur ∧
    (hasPlan entState 2000 "pro").2.1 =
      decide (jsIndexOf planKeys "pro" ≤ planIndexOfO (jLookup entCur "planId")) ∧
    (hasPlan initState 5 "pro").2.1 = false := by
  refine ⟨rfl, ?_, ?_⟩
  · exact C6_plan_order.1 entState 2000 "pro" entCur rfl
  · exact (C6_plan_order.2.2.1 initState 5 "pro" "canUseAPI" rfl).1

/-! ## Claim C10 -/

/-- Claim C10: for any loaded user, `hasPlan(p)` is `true` whenever `p` is
not a catalog identifier: the required index is `-1` and the user's index
is never below `-1`. -/
theorem C10_unknown_plan_grants (s : MState) (t : Int) (p : String) (u : JObj)
    (hp : jsIndexOf planKeys p = -1)
    (hu : (getUserData s t false).2.1 = some u) :
    (hasPlan s t p).2.1 = true := by
  simp only [hasPlan, hu]
  rw [hp]
  simpa using neg_one_le_planIndexOfO (jLookup u "planId")

theorem C10_unknown_plan_witness :
    jsIndexOf planKeys "gold" = -1 ∧
    (getUserData entState 2000 false).2.1 = some entCur ∧
    (hasPlan entState 2000 "gold").2.1 = true :=
  ⟨by decide, rfl, C10_unknown_plan_grants entState 2000 "gold" entCur (by decide) rfl⟩

/-! ## Claim C7 -/

/-- Claim C7: both avatar generators are deterministic — the output is a
function of the `name`/`email` properties alone (identical inputs give a
byte-identical data URL, including a thrown `TypeError` in the degenerate
whitespace-name case) — and the background color is the palette entry at
`Math.abs(hash(email.toLowerCase())) % palette.length`, so two emails whose
hashes differ modulo the palette size get different colors (the palettes
are duplicate-free). -/
theorem C7_avatar_deterministic :
    (∀ u1 u2 : JObj, jLookup u1 "name" = jLookup u2 "name" →
      jLookup u1 "email" = jLookup u2 "email" →
      getDefaultAvatar u1 = getDefaultAvatar u2) ∧
    (∀ e1 e2 : String,
      colorIndex15 e1 ≠ colorIndex15 e2 →
      avatarColor15 e1 ≠ avatarColor15 e2) ∧
    (∀ u1 u2 : JObj, jLookup u1 "name" = jLookup u2 "name" →
      jLookup u1 "email" = jLookup u2 "email" →
      generateUserAvatar u1 = generateUserAvatar u2) ∧
    (∀ e1 e2 : String,
      colorIndex10 e1 ≠ colorIndex10 e2 →
      avatarColor10 e1 ≠ avatarColor10 e2) := by
  refine ⟨?_, ?_, ?_, ?_⟩
  · intro u1 u2 h1 h2
    rw [getDefaultAvatar, getDefaultAvatar, h1, h2]
  · intro e1 e2 hne
    exact getD_ne_of_nodup (by decide)
      (Nat.mod_lt _ (by decide)) (Nat.mod_lt _ (by decide)) hne
  · intro u1 u2 h1 h2
    rw [generateUserAvatar, generateUserAvatar, h1, h2]
  · intro e1 e2 hne
    exact getD_ne_of_nodup (by decide)
      (Nat.mod_lt _ (by decide)) (Nat.mod_lt _ (by decide)) hne

set_option maxRecDepth 8192 in
theorem C7_avatar_witness :
    jLookup [("name", .s "Ada Lovelace"), ("email", .s "ada@example.com")] "name"
      = jLookup [("email", .s "ada@example.com"), ("name", .s "Ada Lovelace"),
                 ("planId", .s "pro")] "name" ∧
    getDefaultAvatar [("name", .s "Ada Lovelace"), ("email", .s "ada@example.com")]
      = getDefaultAvatar [("email", .s "ada@example.com"),
          ("name", .s "Ada Lovelace"), ("planId", .s "pro")] ∧
    colorIndex15 "ada@example.com" ≠ colorIndex15 "bob@example.com" ∧
    avatarColor15 "ada@example.com" ≠ avatarColor15 "bob@example.com" := by
  refine ⟨rfl, ?_, by decide, ?_⟩
  · exact C7_avatar_deterministic.1 _ _ rfl rfl
  · exact C7_avatar_deterministic.2.1 "ada@example.com" "bob@example.com" (by decide)

/-! ## Claim C8 -/

/-- Claim C8: `_triggerEvent` invokes the registered listeners synchronously
in registration order — the invocation trace is exactly the listener list
mapped through a single guarded call — so a listener whose callback throws
(its result is `inl`, caught and logged) never prevents any later listener
from being invoked; and `on` appends a not-yet-registered callback at the
end, preserving registration order. -/
theorem C8_emit_order_isolation :
    (∀ (ls : List Listener) (p : JValue),
      triggerListeners ls p = ls.map (fun l => (l.lid, runListener l p))) ∧
    (∀ (pre : List Listener) (l : Listener) (post : List Listener) (p : JValue),
      triggerListeners (pre ++ l :: post) p =
        triggerListeners pre p ++
          (l.lid, runListener l p) :: triggerListeners post p) ∧
    (∀ (ls : List Listener) (l : Listener),
      ls.any (fun x => x.lid = l.lid) = false →
      onRegister ls l = ls ++ [l]) := by
  have hmap : ∀ (ls : List Listener) (p : JValue),
      triggerListeners ls p = ls.map (fun l => (l.lid, runListener l p)) := by
    intro ls p
    induction ls with
    | nil => rfl
    | cons a rest ih => simp [triggerListeners, ih]
  refine ⟨hmap, ?_, ?_⟩
  · intro pre l post p
    rw [hmap, hmap, hmap, List.map_append, List.map_cons]
  · intro ls l h
    simp [onRegister, h]

/-- A listener whose callback always throws. -/
def listnThrow : Listener := ⟨1, fun _ => .error "boom"⟩

/-- A listener that echoes the payload. -/
def listnEcho : Listener := ⟨2, fun p => .ok p⟩

theorem C8_emit_order_isolation_witness :
    ([listnThrow].any (fun x => x.lid = listnEcho.lid)) = false ∧
    onRegister [listnThrow] listnEcho = [listnThrow, listnEcho] ∧
    triggerListeners [listnThrow, listnEcho] (.s "x")
      = [(1, .inl "boom"), (2, .inr (.s "x"))] := by
  refine ⟨rfl, ?_, ?_⟩
  · exact C8_emit_order_isolation.2.2 [listnThrow] listnEcho rfl
  · exact (C8_emit_order_isolation.1 [listnThrow, listnEcho] (.s "x")).trans rfl

/-! ## Claim C3 -/

/-- Claim C3 counterexample: a reachable state (one `saveUserData` from a
fresh manager caches the merged patch, which carries no `permissions` or
`usage`) in which the public `hasAccess` and `getUsageStats` — the two
operations without a `try/catch` — throw a `TypeError` to the caller
instead of returning `false`/`null`. -/
theorem C3_counterexample :
    (saveUserData initState 1000 firstSavePatch).2.1 = true ∧
    (hasAccess firstSaveState 1001 "canUseAPI").2.1 = .error () ∧
    (getUsageStats firstSaveState 1001 (some "apiCalls")).2.1 = .error () :=
  ⟨rfl, rfl, rfl⟩

/-- Claim C3 (amended): `getUserData`, `saveUserData`, `updateUserPlan` and
`clearUserData` catch internal errors at their boundary (they are total in
this model, returning `null`/`false` on the caught path), and `hasPlan`
cannot throw; `hasAccess` and `getUsageStats`, which have no `try/catch`,
return without throwing whenever no user is loaded or the loaded record
carries object-valued `permissions`/`usage` (as every record enriched from
storage does), but throw when the cache holds a just-saved record lacking
those fields (`C3_counterexample`). -/
theorem C3_no_throw_amended :
    (∀ (s : MState) (t : Int) (f : String),
      (getUserData s t false).2.1 = none →
      (hasAccess s t f).2.1 = .ok false ∧
      (getUsageStats s t (some f)).2.1 = .ok none) ∧
    (∀ (s : MState) (t : Int) (f : String) (u ps : JObj),
      (getUserData s t false).2.1 = some u →
      jLookup u "permissions" = some (.obj ps) →
      (hasAccess s t f).2.1 =
        .ok (match jLookup ps f with | some (.b true) => true | _ => false)) ∧
    (∀ (s : MState) (t : Int) (m : String) (u us : JObj),
      (getUserData s t false).2.1 = some u →
      jLookup u "usage" = some (.obj us) →
      (getUsageStats s t (some m)).2.1 =
        .ok (if jTruthyO (jLookup us m) then jLookup us m else none)) := by
  refine ⟨?_, ?_, ?_⟩
  · intro s t f hn
    exact ⟨by simp [hasAccess, hn], by simp [getUsageStats, hn]⟩
  · intro s t f u ps hu hp
    simp [hasAccess, hu, hp, jIndexThrow]
  · intro s t m u us hu hus
    simp [getUsageStats, hu, hus, jIndexThrow]

theorem C3_no_throw_witness :
    (getUserData richState 2000 false).2.1 = some richCur ∧
    jLookup richCur "permissions" = some (.obj (getPermissions (.s "pro"))) ∧
    (hasAccess richState 2000 "canUseAPI").2.1 =
      .ok (match jLookup (getPermissions (.s "pro")) "canUseAPI" with
           | some (.b true) => true | _ => false) := by
  refine ⟨rfl, rfl, ?_⟩
  exact C3_no_throw_amended.2.1 richState 2000 "canUseAPI" richCur
    (getPermissions (.s "pro")) rfl rfl

/-! ## Claim C9 -/

/-- Claim C9: the enriched record is never itself persisted — after every
successful `saveUserData`, the value stored under the user-data key lacks
`usage`, `permissions` and `metrics` (and also the `subscription` and
`settings` sub-objects, which, when truthy in the merged record, are
persisted under their own storage keys instead). -/
theorem C9_enrichment_not_persisted (s : MState) (t : Int) (d : JValue)
    (hok : (saveUserData s t d).2.1 = true) :
    ((saveUserData s t d).1.userDataS).isSome = true ∧
    jLookup (((saveUserData s t d).1.userDataS).getD []) "usage" = none ∧
    jLookup (((saveUserData s t d).1.userDataS).getD []) "permissions" = none ∧
    jLookup (((saveUserData s t d).1.userDataS).getD []) "metrics" = none ∧
    jLookup (((saveUserData s t d).1.userDataS).getD []) "subscription" = none ∧
    jLookup (((saveUserData s t d).1.userDataS).getD []) "settings" = none ∧
    (∀ m v, (saveUserData s t d).1.currentUser = some m →
      jLookup m "subscription" = some v → jTruthy v = true →
      (saveUserData s t d).1.subscrS = some v) ∧
    (∀ m v, (saveUserData s t d).1.currentUser = some m →
      jLookup m "settings" = some v → jTruthy v = true →
      (saveUserData s t d).1.settingsS = some v) := by
  have hv : validateUserData d = true := by
    cases hx : validateUserData d
    · rw [saveUserData] at hok
      simp [hx] at hok
    · rfl
  refine ⟨?_, ?_, ?_, ?_, ?_, ?_, ?_, ?_⟩
  · simp [saveUserData, hv]
  · simp only [saveUserData, hv, if_true]
    rw [Option.getD_some, jLookup_jEraseMany]
    simp
  · simp only [saveUserData, hv, if_true]
    rw [Option.getD_some, jLookup_jEraseMany]
    simp
  · simp only [saveUserData, hv, if_true]
    rw [Option.getD_some, jLookup_jEraseMany]
    simp
  · simp only [saveUserData, hv, if_true]
    rw [Option.getD_some, jLookup_jEraseMany]
    simp
  · simp only [saveUserData, hv, if_true]
    rw [Option.getD_some, jLookup_jEraseMany]
    simp
  · intro m v hm hsub htr
    simp only [saveUserData, hv, if_true] at hm ⊢
    rw [Option.some_inj] at hm
    subst hm
    simp [hsub, jTruthyO, htr]
  · intro m v hm hset htr
    simp only [saveUserData, hv, if_true] at hm ⊢
    rw [Option.some_inj] at hm
    subst hm
    simp [hset, jTruthyO, htr]

/-- A login payload carrying a `settings` sub-object. -/
def c9Patch : JValue :=
  .obj [("email", .s "c9@ex.co"), ("settings", .obj [("theme", .s "dark")])]

/-- The merged record `saveUserData` caches for `c9Patch`. -/
def c9Merged : JObj :=
  ((saveUserData initState 1000 c9Patch).1.currentUser).getD []

theorem C9_enrichment_not_persisted_witness :
    (saveUserData initState 1000 c9Patch).2.1 = true ∧
    jLookup (((saveUserData initState 1000 c9Patch).1.userDataS).getD [])
      "settings" = none ∧
    (saveUserData initState 1000 c9Patch).1.settingsS =
      some (.obj [("theme", .s "dark")]) := by
  refine ⟨rfl, ?_, ?_⟩
  · exact (C9_enrichment_not_persisted initState 1000 c9Patch rfl).2.2.2.2.2.1
  · exact (C9_enrichment_not_persisted initState 1000 c9Patch rfl).2.2.2.2.2.2.2
      c9Merged (.obj [("theme", .s "dark")]) rfl rfl rfl

/-! ## Claim C2 -/

/-- The state after the two saves of the C2 counterexample's second
scenario. -/
def c2LMState : MState :=
  (saveUserData firstSaveState 3000 (.obj [("lastModified", .iso 123)])).1

/-- Claim C2 counterexample.  Scenario 1: the very first accepted
`saveUserData` merges the patch over an empty record, so the immediately
following `getUserData()` (a cache hit) contains none of the enrichment
fields `usage`, `permissions`, `subscription`.  Scenario 2: a patch
carrying `lastModified` is not contained in the read-back — `saveUserData`
overwrites that field with the save time. -/
theorem C2_counterexample :
    (saveUserData initState 1000 firstSavePatch).2.1 = true ∧
    ((getUserData firstSaveState 1001 false).2.1).isSome = true ∧
    jLookup (((getUserData firstSaveState 1001 false).2.1).getD []) "usage" = none ∧
    jLookup (((getUserData firstSaveState 1001 false).2.1).getD []) "permissions" = none ∧
    jLookup (((getUserData firstSaveState 1001 false).2.1).getD []) "subscription" = none ∧
    (saveUserData firstSaveState 3000 (.obj [("lastModified", .iso 123)])).2.1 = true ∧
    jLookup (((getUserData c2LMState 3001 false).2.1).getD []) "lastModified"
      = some (.iso 3000) ∧
    (123 : Int) ≠ 3000 :=
  ⟨rfl, rfl, rfl, rfl, rfl, rfl, rfl, by decide⟩

/-- Claim C2 (amended): if the record loaded at save time already carries the
enrichment fields (`usage`, `permissions`, `subscription` — true whenever
it was enriched from storage rather than produced by a first save), then for
every accepted patch whose keys are distinct and do not include
`lastModified`, `saveUserData` succeeds and the immediately following
`getUserData()` returns the merged record, which contains every field of the
patch together with the three enrichment fields; and two `getUserData()`
calls with no intervening write always return structurally identical
results. -/
theorem C2_roundtrip_amended :
    (∀ (s : MState) (t1 t2 t3 : Int) (fs : List (String × JValue)) (cur : JObj),
      (getUserData s t1 false).2.1 = some cur →
      (jLookup cur "usage").isSome = true →
      (jLookup cur "permissions").isSome = true →
      (jLookup cur "subscription").isSome = true →
      validateUserData (.obj fs) = true →
      (fs.map Prod.fst).Nodup →
      jLookup fs "lastModified" = none →
      ((saveUserData (getUserData s t1 false).1 t2 (.obj fs)).2.1 = true ∧
       (getUserData (saveUserData (getUserData s t1 false).1 t2 (.obj fs)).1
          t3 false).2.1 = some (mergedOf cur fs t2) ∧
       (∀ k v, jLookup fs k = some v →
         jLookup (mergedOf cur fs t2) k = some v) ∧
       (jLookup (mergedOf cur fs t2) "usage").isSome = true ∧
       (jLookup (mergedOf cur fs t2) "permissions").isSome = true ∧
       (jLookup (mergedOf cur fs t2) "subscription").isSome = true)) ∧
    (∀ (s : MState) (t t' : Int),
      (getUserData (getUserData s t false).1 t' false).2.1 =
        (getUserData s t false).2.1) := by
  constructor
  · intro s t1 t2 t3 fs cur hcur hu hp hs hval hnd hlm
    have hc1 : (getUserData s t1 false).1.currentUser = some cur :=
      getUserData_cache_of_some hcur
    have hsave := saveUserData_cached (t := t2) hc1 hval
    refine ⟨?_, ?_, ?_, ?_, ?_, ?_⟩
    · rw [hsave]
    · rw [hsave]
      show (getUserData { (getUserData s t1 false).1 with
          userDataS := some (jEraseMany (mergedOf cur fs t2)
            ["subscription", "settings", "usage", "metrics", "permissions"]),
          subscrS := _, settingsS := _,
          currentUser := some (mergedOf cur fs t2) } t3 false).2.1
        = some (mergedOf cur fs t2)
      rw [getUserData_cacheHit rfl t3]
    · intro k v hkv
      have hklm : k ≠ "lastModified" := by
        intro he
        subst he
        rw [hlm] at hkv
        cases hkv
      rw [mergedOf, jLookup_jInsert_ne (Ne.symm hklm)]
      exact jLookup_jMergeFields_of_lookup hnd hkv
    · rw [mergedOf, jLookup_jInsert_ne (by decide)]
      exact jLookup_isSome_jMergeFields hu
    · rw [mergedOf, jLookup_jInsert_ne (by decide)]
      exact jLookup_isSome_jMergeFields hp
    · rw [mergedOf, jLookup_jInsert_ne (by decide)]
      exact jLookup_isSome_jMergeFields hs
  · exact getUserData_idem

theorem C2_roundtrip_witness :
    (getUserData richState 2000 false).2.1 = some richCur ∧
    (jLookup richCur "usage").isSome = true ∧
    validateUserData (.obj [("nickname", .s "Ada")]) = true ∧
    (saveUserData (getUserData richState 2000 false).1 3000
      (.obj [("nickname", .s "Ada")])).2.1 = true ∧
    (getUserData (saveUserData (getUserData richState 2000 false).1 3000
      (.obj [("nickname", .s "Ada")])).1 4000 false).2.1
      = some (mergedOf richCur [("nickname", .s "Ada")] 3000) ∧
    jLookup (mergedOf richCur [("nickname", .s "Ada")] 3000) "nickname"
      = some (.s "Ada") := by
  have h := C2_roundtrip_amended.1 richState 2000 3000 4000
    [("nickname", .s "Ada")] richCur rfl rfl rfl rfl rfl (by simp) rfl
  exact ⟨rfl, rfl, rfl, h.1, h.2.1, h.2.2.1 "nickname" (.s "Ada") rfl⟩

/-! ## Claim C5 -/

/-- The subscription object `updateUserPlan` builds when no
`subscriptionData` is supplied: all defaults. -/
def subscriptionBuilt (pid : String) (pd : JObj) (t : Int) : JObj :=
  [("planId", .s pid), ("planName", optJ (jLookup pd "name")),
   ("startDate", .iso t), ("endDate", .iso (calculateEndDate pid t)),
   ("status", .s "active"), ("autoRenew", .b true),
   ("paymentMethod", .s "unknown"), ("amount", optJ (jLookup pd "price")),
   ("currency", .s "USD")]

/-- `updateUserPlan` with a valid plan, a loaded user and no
`subscriptionData`, spelled out. -/
theorem updateUserPlan_defaults (s : MState) (t : Int) (pid : String)
    (pd cur : JObj) (hpe : planEntry pid = some pd)
    (hcur : (getUserData s t false).2.1 = some cur) :
    updateUserPlan s t pid none =
      ((saveUserData { (getUserData s t false).1 with
          subscrS := some (.obj (subscriptionBuilt pid pd t)) } t
          (.obj [("planId", .s pid), ("plan", optJ (jLookup pd "name"))])).1,
       true,
       (getUserData s t false).2.2 ++
       (saveUserData { (getUserData s t false).1 with
          subscrS := some (.obj (subscriptionBuilt pid pd t)) } t
          (.obj [("planId", .s pid), ("plan", optJ (jLookup pd "name"))])).2.2 ++
       [("planChanged", some (.obj
          [("oldPlan", optJ (jLookup cur "planId")),
           ("newPlan", .s pid),
           ("subscription", .obj (subscriptionBuilt pid pd t))])),
        ("notification", some (.obj
          [("message", .s "Plan updated successfully!"),
           ("type", .s "success")]))]) := by
  simp [updateUserPlan, hpe, hcur, subscriptionBuilt, jTruthyO,
    jMergeFields_nil]

/-- Claim C5 (amended): `updateUserPlan(planId, subscriptionDetails?)`
builds a Subscription whose fields default to `status = "active"`,
`startDate = now` and `endDate = _calculateEndDate(planId)` — 30 days out
for paid plans, about 100 years for `free` — but `subscriptionDetails` is
spread last and can override any of them, including `status`
(`C5_counterexample`); it persists the built subscription, then calls
`saveUserData({planId, plan: planName})` (whose merge re-persists the
previously enriched subscription over it when the loaded record carries
one), and emits `planChanged` with the old and new plan ids; it returns
`false` when `planId` is not in the catalog or no user is loaded. -/
theorem C5_update_plan_amended :
    (∀ (s : MState) (t : Int) (pid : String) (pd cur : JObj),
      planEntry pid = some pd →
      (getUserData s t false).2.1 = some cur →
      (updateUserPlan s t pid none).2.1 = true ∧
      (∃ pre, (updateUserPlan s t pid none).2.2 =
        pre ++ [("planChanged", some (.obj
            [("oldPlan", optJ (jLookup cur "planId")),
             ("newPlan", .s pid),
             ("subscription", .obj (subscriptionBuilt pid pd t))])),
          ("notification", some (.obj
            [("message", .s "Plan updated successfully!"),
             ("type", .s "success")]))]) ∧
      jLookup (subscriptionBuilt pid pd t) "status" = some (.s "active") ∧
      jLookup (subscriptionBuilt pid pd t) "startDate" = some (.iso t) ∧
      jLookup (subscriptionBuilt pid pd t) "endDate" =
        some (.iso (calculateEndDate pid t))) ∧
    (∀ t : Int, calculateEndDate "free" t = t + 100 * 365 * 86400000) ∧
    (∀ (pid : String) (t : Int), pid ≠ "free" →
      calculateEndDate pid t = t + 30 * 86400000) ∧
    (∀ (s : MState) (t : Int) (pid : String) (subD : Option JObj),
      planEntry pid = none → updateUserPlan s t pid subD = (s, false, [])) ∧
    (∀ (s : MState) (t : Int) (pid : String) (pd : JObj) (subD : Option JObj),
      planEntry pid = some pd →
      (getUserData s t false).2.1 = none →
      (updateUserPlan s t pid subD).2.1 = false) := by
  refine ⟨?_, ?_, ?_, ?_, ?_⟩
  · intro s t pid pd cur hpe hcur
    rw [updateUserPlan_defaults s t pid pd cur hpe hcur]
    refine ⟨rfl, ⟨(getUserData s t false).2.2 ++
      (saveUserData { (getUserData s t false).1 with
        subscrS := some (.obj (subscriptionBuilt pid pd t)) } t
        (.obj [("planId", .s pid), ("plan", optJ (jLookup pd "name"))])).2.2,
      ?_⟩, rfl, rfl, rfl⟩
    rw [List.append_assoc]
  · intro t
    rfl
  · intro pid t h
    simp [calculateEndDate, h]
  · intro s t pid subD hpe
    simp [updateUserPlan, hpe]
  · intro s t pid pd subD hpe hn
    simp [updateUserPlan, hpe, hn]

/-- The `updateUserPlan` call of the C5 counterexample: a loaded user, a
valid plan, and `subscriptionData` carrying `status: "cancelled"`. -/
def c5Upd : MState × Bool × List Ev :=
  updateUserPlan firstSaveState 2000 "pro" (some [("status", .s "cancelled")])

/-- The `status` of the subscription carried by the `planChanged` event of
`c5Upd`. -/
def c5EventStatus : Option JValue :=
  match (c5Upd.2.2.filter (fun ev => ev.1 = "planChanged")).head? with
  | some (_, some (.obj p)) =>
    match jLookup p "subscription" with
    | some (.obj sub) => jLookup sub "status"
    | _ => none
  | _ => none

/-- The `status` of the subscription left under the subscription storage key
by `c5Upd`. -/
def c5StoredStatus : Option JValue :=
  match c5Upd.1.subscrS with
  | some (.obj sub) => jLookup sub "status"
  | _ => none

/-- Claim C5 counterexample: with `subscriptionDetails = {status:
"cancelled"}` the spread overrides the default, so the Subscription
`updateUserPlan` builds — and the one left persisted — has status
`"cancelled"`, not `"active"`, although the call succeeds. -/
theorem C5_counterexample :
    c5Upd.2.1 = true ∧
    c5EventStatus = some (.s "cancelled") ∧
    c5StoredStatus = some (.s "cancelled") :=
  ⟨rfl, rfl, rfl⟩

theorem C5_update_plan_witness :
    planEntry "basic" = some basicPlan ∧
    (getUserData richState 2000 false).2.1 = some richCur ∧
    (updateUserPlan richState 2000 "basic" none).2.1 = true ∧
    jLookup (subscriptionBuilt "basic" basicPlan 2000) "status"
      = some (.s "active") ∧
    updateUserPlan initState 5 "gold" none = (initState, false, []) := by
  refine ⟨rfl, rfl, ?_, ?_, ?_⟩
  · exact (C5_update_plan_amended.1 richState 2000 "basic" basicPlan richCur
      rfl rfl).1
  · exact (C5_update_plan_amended.1 richState 2000 "basic" basicPlan richCur
      rfl rfl).2.2.1
  · exact C5_update_plan_amended.2.2.2.1 initState 5 "gold" none rfl
